import Mathlib

/-!
Verification of the aector actor runtime (Rust) against its natural-language
specification. The definitions below are a shallow embedding of the source
files under src/: pure data is translated to Lean structures and inductives,
mutation of `&mut` arguments becomes explicit state passing, channels become
explicit input lists, and sends performed through an address become a trace
recorded on the actor context. Rust panics are modelled as a distinguished
propagating outcome, and functions of the source that may panic return
`Except String`.
-/

namespace Aector

/-- Addresses are opaque handles; only identity matters for the embedding. -/
abbrev Addr := Nat

/-- Runtime type identity of a payload, mirroring std::any::TypeId as used by
the dispatch tables. The internal protocol types of the crate are listed
explicitly; arbitrary user message types are represented by a numeric tag. -/
inductive TypeId where
  | manage
  | stateCheck
  | testMsg
  | user (n : Nat)
deriving DecidableEq, Repr

/-- ActorManageMessage from src/behavior.rs. -/
inductive ActorManageMessage where
  | Kill
  | Restart
deriving DecidableEq, Repr

/-- StateCheckMessage from src/behavior.rs. The function payload of the
Check variant is a predicate over the subject state; it is kept opaque as a
numeric identifier, since no claim evaluates it. -/
inductive StateCheckMessage where
  | Check (pred : Nat)
  | Result (b : Bool)
deriving DecidableEq, Repr

/-- Type-erased payloads (Box of dyn Any in message.rs). -/
inductive Payload where
  | manage (m : ActorManageMessage)
  | stateCheck (m : StateCheckMessage)
  | testMsg
  | user (tid : Nat) (v : Nat)
deriving DecidableEq, Repr

/-- The type identity of a payload, as returned by Message::type_id. -/
def Payload.typeId : Payload → TypeId
  | .manage _ => .manage
  | .stateCheck _ => .stateCheck
  | .testMsg => .testMsg
  | .user tid _ => .user tid

/-- Message from src/message.rs: a type-erased payload plus an optional
reply-to address. -/
structure Message where
  payload : Payload
  sender : Option Addr
deriving DecidableEq, Repr

/-- Message::with_sender. -/
def Message.with_sender (p : Payload) (s : Addr) : Message := ⟨p, some s⟩

/-- Message::without_sender. -/
def Message.without_sender (p : Payload) : Message := ⟨p, none⟩

/-- Message::type_id. -/
def Message.typeId (m : Message) : TypeId := m.payload.typeId

/-- ContextFlag from src/actor/actor_context.rs. -/
inductive ContextFlag where
  | Run
  | Kill
  | Restart
deriving DecidableEq, Repr

/-- ActorContext from src/actor/actor_context.rs. The sys back-reference is
not needed by the claims; sends performed from inside a handler (through any
Addr) are recorded on the context as a trace of (destination, message)
pairs, replacing the channel side effect of Addr::send. -/
structure ActorContext where
  addr : Addr
  flag : ContextFlag
  sent : List (Addr × Message)
deriving DecidableEq, Repr

/-- ActorContext::new. -/
def ActorContext.new (addr : Addr) : ActorContext := ⟨addr, .Run, []⟩

/-- ActorContext::get_addr. -/
def ActorContext.get_addr (ctx : ActorContext) : Addr := ctx.addr

/-- ActorContext::kill. -/
def ActorContext.kill (ctx : ActorContext) : ActorContext :=
  { ctx with flag := .Kill }

/-- ActorContext::restart. -/
def ActorContext.restart (ctx : ActorContext) : ActorContext :=
  { ctx with flag := .Restart }

/-- Embedding of Addr::send / Addr::tell / Addr::ask as performed from inside
a handler: the enqueue is recorded on the context trace. -/
def ActorContext.sendTo (ctx : ActorContext) (dest : Addr) (m : Message) :
    ActorContext :=
  { ctx with sent := ctx.sent ++ [(dest, m)] }

/-- Errors produced by handlers (Box of dyn Error in the source); the three
testing errors of src/testing/actor_test.rs are listed, any other user error
is a numeric tag. -/
inductive BErr where
  | invalidMessageOrder
  | criteriaNotMet
  | stateCheckFailed
  | userErr (n : Nat)
deriving DecidableEq, Repr

/-- A handler invocation either returns a BehaviorAction value or raises a
panic that propagates; the Err case of BehaviorAction and a panic are kept
distinct, exactly as in Rust where a panic is not a value. -/
inductive PErr where
  | fail (e : BErr)
  | panicked (msg : String)
deriving DecidableEq, Repr

/-- Behavior from src/behavior.rs: two type-indexed dispatch tables (the
HashMaps become association lists) and four optional lifecycle hooks. A
stored handler takes the erased message, the state and the context and
returns (BehaviorAction, state, context); the Ok payload of a BehaviorAction
is an optional replacement behavior, hence the nested recursion. -/
inductive Behavior (S : Type) : Type where
  | mk
    (on_ask_handler :
      List (TypeId × (Message → S → ActorContext →
        (Except PErr (Option (Behavior S)) × S × ActorContext))))
    (on_tell_handler :
      List (TypeId × (Message → S → ActorContext →
        (Except PErr (Option (Behavior S)) × S × ActorContext))))
    (on_start : Option (S → ActorContext → S × ActorContext))
    (on_kill : Option (S → ActorContext → S × ActorContext))
    (on_error : Option (S → ActorContext → S × ActorContext))
    (on_restart : Option (S → ActorContext → S × ActorContext))

/-- Result of one handler call: the BehaviorAction (or propagating panic),
the possibly mutated state and the possibly mutated context. -/
abbrev HandlerOut (S : Type) :=
  Except PErr (Option (Behavior S)) × S × ActorContext

/-- Type of stored (type-erased) handlers, HandlerFn in src/behavior.rs. -/
abbrev HandlerFn (S : Type) := Message → S → ActorContext → HandlerOut S

/-- Type of lifecycle hooks, PlainActorAction in src/behavior.rs. -/
abbrev Hook (S : Type) := S → ActorContext → S × ActorContext

namespace Behavior

def on_ask_handler : Behavior S → List (TypeId × HandlerFn S)
  | .mk a _ _ _ _ _ => a

def on_tell_handler : Behavior S → List (TypeId × HandlerFn S)
  | .mk _ t _ _ _ _ => t

def on_start : Behavior S → Option (Hook S)
  | .mk _ _ s _ _ _ => s

def on_kill : Behavior S → Option (Hook S)
  | .mk _ _ _ k _ _ => k

def on_error : Behavior S → Option (Hook S)
  | .mk _ _ _ _ e _ => e

def on_restart : Behavior S → Option (Hook S)
  | .mk _ _ _ _ _ r => r

/-- Behavior::keep, as the action value Ok(None). -/
def keepAction : Except PErr (Option (Behavior S)) := .ok none

/-- Behavior::change, as the action value Ok(Some b). -/
def changeAction (b : Behavior S) : Except PErr (Option (Behavior S)) :=
  .ok (some b)

end Behavior

/-- Lookup in a dispatch table (HashMap::get on the TypeId key). -/
def tableGet (table : List (TypeId × HandlerFn S)) (tid : TypeId) :
    Option (HandlerFn S) :=
  (table.find? (fun p => p.1 = tid)).map Prod.snd

/-- Whether a dispatch table has an entry (HashMap::contains_key). -/
def tableHas (table : List (TypeId × HandlerFn S)) (tid : TypeId) : Bool :=
  (table.find? (fun p => p.1 = tid)).isSome

/-- Dispatch through one table: run the registered handler if present,
otherwise drop the message silently, returning Ok(None) with state and
context untouched. -/
def dispatchVia (table : List (TypeId × HandlerFn S)) (m : Message) (s : S)
    (ctx : ActorContext) : HandlerOut S :=
  match tableGet table m.typeId with
  | some f => f m s ctx
  | none => (.ok none, s, ctx)

/-- Behavior::handle from src/behavior.rs: if the message carries a sender,
consult the ask table, otherwise the tell table; a missing entry drops the
message silently. -/
def Behavior.handle (b : Behavior S) (m : Message) (s : S)
    (ctx : ActorContext) : HandlerOut S :=
  match m.sender with
  | some _ =>
    match tableGet b.on_ask_handler m.typeId with
    | some f => f m s ctx
    | none => (.ok none, s, ctx)
  | none =>
    match tableGet b.on_tell_handler m.typeId with
    | some f => f m s ctx
    | none => (.ok none, s, ctx)

/-- ExitReason from src/actor/actor.rs. -/
inductive ExitReason where
  | Kill
  | Restart
  | Error
deriving DecidableEq, Repr

/-- Actor from src/actor/actor.rs: state, behavior and context. The mailbox
is externalised: the run loop below consumes an explicit list of dequeue
results instead of awaiting a channel, and the address lives in the
context. -/
structure Actor (S : Type) where
  state : S
  behavior : Behavior S
  context : ActorContext

/-- Actor::new: the mailbox is created and its address stored; here the
fresh address is a parameter. -/
def Actor.new (addr : Addr) (state : S) (behavior : Behavior S) : Actor S :=
  ⟨state, behavior, ActorContext.new addr⟩

/-- Actor::handle: dispatch through the current behavior, install a
replacement behavior if the action is Change, surface a handler error as
Some, and propagate a panic (Except.error). -/
def Actor.handle (a : Actor S) (m : Message) :
    Except String (Option BErr × Actor S) :=
  match a.behavior.handle m a.state a.context with
  | (res, s', ctx') =>
    match res with
    | .ok newBehavior =>
      .ok (none, ⟨s', newBehavior.getD a.behavior, ctx'⟩)
    | .error (.fail e) => .ok (some e, ⟨s', a.behavior, ctx'⟩)
    | .error (.panicked msg) => .error msg

/-- Run the on_start hook if present (Actor::on_start). -/
def Actor.onStart (a : Actor S) : Actor S :=
  match a.behavior.on_start with
  | some f =>
    match f a.state a.context with
    | (s', ctx') => ⟨s', a.behavior, ctx'⟩
  | none => a

/-- Run the on_kill hook if present (Actor::on_kill). -/
def Actor.onKill (a : Actor S) : Actor S :=
  match a.behavior.on_kill with
  | some f =>
    match f a.state a.context with
    | (s', ctx') => ⟨s', a.behavior, ctx'⟩
  | none => a

/-- Run the on_error hook if present (Actor::on_error). -/
def Actor.onError (a : Actor S) : Actor S :=
  match a.behavior.on_error with
  | some f =>
    match f a.state a.context with
    | (s', ctx') => ⟨s', a.behavior, ctx'⟩
  | none => a

/-- Run the on_restart hook if present (Actor::on_restart). -/
def Actor.onRestart (a : Actor S) : Actor S :=
  match a.behavior.on_restart with
  | some f =>
    match f a.state a.context with
    | (s', ctx') => ⟨s', a.behavior, ctx'⟩
  | none => a

/-- Result of running the actor loop on a finite list of dequeue results. -/
inductive RunResult (S : Type) where
  | exited (r : ExitReason) (a : Actor S)
  | outOfInput (a : Actor S)
  | panicked (msg : String)

/-- The exit reason of a run, if the run loop returned one. -/
def RunResult.exitReason? : RunResult S → Option ExitReason
  | .exited r _ => some r
  | .outOfInput _ => none
  | .panicked _ => none

/-- The loop body of Actor::run: each list element is the result of one
mailbox.recv().await (none models a recv that yielded None). The source
loop, translated clause by clause: flag Kill runs on_kill and exits Kill;
flag Restart runs on_restart and exits Restart; flag Run awaits input; a
Some message is dispatched, a handler error runs on_error and exits Error,
otherwise the loop continues; a None input leaves the actor unchanged and
the loop continues. An exhausted input list means the loop is still
running. -/
def Actor.runLoop : Actor S → List (Option Message) → RunResult S
  | a, inputs =>
    match a.context.flag with
    | .Kill => .exited .Kill a.onKill
    | .Restart => .exited .Restart a.onRestart
    | .Run =>
      match inputs with
      | [] => .outOfInput a
      | none :: rest => Actor.runLoop a rest
      | some m :: rest =>
        match a.handle m with
        | .error p => .panicked p
        | .ok (some _, a') => .exited .Error a'.onError
        | .ok (none, a') => Actor.runLoop a' rest

/-- Actor::run: on_start once, then the loop. -/
def Actor.run (a : Actor S) (inputs : List (Option Message)) : RunResult S :=
  Actor.runLoop a.onStart inputs

/-! Part 2: BehaviorBuilder (src/behavior.rs).

Registration functions panic on a duplicate registration; a panic during
building is modelled as `Except.error` carrying the panic message. The
source wraps each typed user handler into a type-erased closure that checks
the runtime type identity and downcasts; handlers in this embedding are
given in that already-erased form, and each concrete handler below carries
the wrapper structure (type-identity guard, downcast-failure panic branch,
and for ask handlers the missing-sender branch) inline. -/

/-- Panic message of the downcast wrapper closures. -/
def invalidDowncastMsg : String := "Invalid downcasting operation!"

/-- Panic message of BehaviorBuilder::on_tell and on_tell_closure on a
duplicate registration (the source interpolates the type name). -/
def duplicateTellHandlerMsg : String :=
  "Tell handler has already been defined on this behavior! Cannot define more than one tell handler per message type per actor!"

/-- Panic message of BehaviorBuilder::on_ask and on_ask_closure on a
duplicate registration. -/
def duplicateAskHandlerMsg : String :=
  "Ask handler has already been defined on this behavior! Cannot define more than one ask handler per message type per actor!"

/-- BehaviorBuilder from src/behavior.rs. -/
structure BehaviorBuilder (S : Type) where
  on_ask_handler : List (TypeId × HandlerFn S)
  on_tell_handler : List (TypeId × HandlerFn S)
  on_start : Option (Hook S)
  on_kill : Option (Hook S)
  on_error : Option (Hook S)
  on_restart : Option (Hook S)

namespace BehaviorBuilder

/-- BehaviorBuilder::new. -/
def new : BehaviorBuilder S := ⟨[], [], none, none, none, none⟩

/-- BehaviorBuilder::on_ask (and on_ask_closure): register an ask handler
for the given type identity; a second registration for the same type
panics. -/
def on_ask (b : BehaviorBuilder S) (tid : TypeId) (h : HandlerFn S) :
    Except String (BehaviorBuilder S) :=
  if tableHas b.on_ask_handler tid then .error duplicateAskHandlerMsg
  else .ok { b with on_ask_handler := b.on_ask_handler ++ [(tid, h)] }

/-- BehaviorBuilder::on_tell (and on_tell_closure): register a tell handler
for the given type identity; a second registration for the same type
panics. -/
def on_tell (b : BehaviorBuilder S) (tid : TypeId) (h : HandlerFn S) :
    Except String (BehaviorBuilder S) :=
  if tableHas b.on_tell_handler tid then .error duplicateTellHandlerMsg
  else .ok { b with on_tell_handler := b.on_tell_handler ++ [(tid, h)] }

/-- BehaviorBuilder::on_start: at most one on_start hook. -/
def set_on_start (b : BehaviorBuilder S) (f : Hook S) :
    Except String (BehaviorBuilder S) :=
  match b.on_start with
  | some _ => .error "Cannot define more than one on_start methods for same actor!"
  | none => .ok { b with on_start := some f }

/-- BehaviorBuilder::on_kill: at most one on_kill hook. -/
def set_on_kill (b : BehaviorBuilder S) (f : Hook S) :
    Except String (BehaviorBuilder S) :=
  match b.on_kill with
  | some _ => .error "Cannot define more than one on_kill methods for same actor!"
  | none => .ok { b with on_kill := some f }

/-- BehaviorBuilder::on_error: at most one on_error hook. -/
def set_on_error (b : BehaviorBuilder S) (f : Hook S) :
    Except String (BehaviorBuilder S) :=
  match b.on_error with
  | some _ => .error "Cannot define more than one on_error methods for same actor!"
  | none => .ok { b with on_error := some f }

/-- BehaviorBuilder::on_restart: at most one on_restart hook. -/
def set_on_restart (b : BehaviorBuilder S) (f : Hook S) :
    Except String (BehaviorBuilder S) :=
  match b.on_restart with
  | some _ => .error "Cannot define more than one on_restart methods for same actor!"
  | none => .ok { b with on_restart := some f }

/-- BehaviorBuilder::has_tell_handler. -/
def has_tell_handler (b : BehaviorBuilder S) (tid : TypeId) : Bool :=
  tableHas b.on_tell_handler tid

/-- BehaviorBuilder::has_ask_handler. -/
def has_ask_handler (b : BehaviorBuilder S) (tid : TypeId) : Bool :=
  tableHas b.on_ask_handler tid

end BehaviorBuilder

/-- The management tell handler that BehaviorBuilder::build registers for
ActorManageMessage: Kill sets the Kill flag, Restart sets the Restart flag,
then the behavior is kept. The catch-all branch is the downcast-wrapper
panic on a type mismatch. -/
def manageHandler : HandlerFn S := fun m s ctx =>
  match m.payload with
  | .manage .Kill => (Behavior.keepAction, s, ctx.kill)
  | .manage .Restart => (Behavior.keepAction, s, ctx.restart)
  | _ => (.error (.panicked invalidDowncastMsg), s, ctx)

/-- BehaviorBuilder::build: unconditionally registers the management tell
handler through on_tell (panicking if a tell handler for ActorManageMessage
already exists) and produces the Behavior. -/
def BehaviorBuilder.build (b : BehaviorBuilder S) : Except String (Behavior S) :=
  match b.on_tell TypeId.manage manageHandler with
  | .error e => .error e
  | .ok b2 =>
    .ok (Behavior.mk b2.on_ask_handler b2.on_tell_handler b2.on_start
      b2.on_kill b2.on_error b2.on_restart)

/-! Part 3: Backup and supervision (src/actor/backup.rs,
src/supervision/supervision.rs, src/supervision/simple_restart_strategy.rs,
and the supervision task of ActorSystem::spawn_with_supervision) -/

/-- Backup from src/actor/backup.rs: a snapshot of state and behavior.
Rust clone of the stored values is the identity on the embedded values. -/
structure Backup (S : Type) where
  state : S
  behavior : Behavior S

/-- Backup::new. -/
def Backup.new (state : S) (behavior : Behavior S) : Backup S :=
  ⟨state, behavior⟩

/-- Backup::get_state (returns a clone). -/
def Backup.get_state (b : Backup S) : S := b.state

/-- Backup::get_behavior (returns a clone). -/
def Backup.get_behavior (b : Backup S) : Behavior S := b.behavior

/-- Actor::create_backup. -/
def Actor.create_backup (a : Actor S) : Backup S :=
  Backup.new a.state a.behavior

/-- Actor::apply_backup: replace live state and behavior with clones of the
snapshot. -/
def Actor.apply_backup (a : Actor S) (bk : Backup S) : Actor S :=
  { a with state := bk.get_state, behavior := bk.get_behavior }

/-- SuperVisionAction from src/supervision/supervision.rs; the delay is an
abstract duration. -/
inductive SuperVisionAction where
  | Exit
  | Restart
  | RestartDelayed (d : Nat)
deriving DecidableEq, Repr

/-- SimpleRestartStrategy::apply from
src/supervision/simple_restart_strategy.rs: Exit on Kill; on Restart and on
Error, apply the backup to the actor and return Restart. The &mut actor
becomes the returned actor. -/
def SimpleRestartStrategy.apply (r : ExitReason) (backup : Backup S)
    (a : Actor S) : SuperVisionAction × Actor S :=
  match r with
  | .Kill => (.Exit, a)
  | .Restart => (.Restart, a.apply_backup backup)
  | .Error => (.Restart, a.apply_backup backup)

/-- Result of the supervision task of ActorSystem::spawn_with_supervision. -/
inductive SuperviseResult (S : Type) where
  | exited (a : Actor S)
  | running (a : Actor S)
  | panicked (msg : String)

/-- The supervision loop of ActorSystem::spawn_with_supervision, specialised
to the built-in SimpleRestartStrategy: run the actor, consult the strategy
on its exit reason, and on Restart or RestartDelayed re-enter the run loop.
Each element of rounds is the dequeue stream of one life of the actor; an
exhausted rounds list means the loop is still running. -/
def superviseLoop (backup : Backup S) :
    Actor S → List (List (Option Message)) → SuperviseResult S
  | a, [] => .running a
  | a, inputs :: rest =>
    match a.run inputs with
    | .exited r a' =>
      match SimpleRestartStrategy.apply r backup a' with
      | (.Exit, a2) => .exited a2
      | (.Restart, a2) => superviseLoop backup a2 rest
      | (.RestartDelayed _, a2) => superviseLoop backup a2 rest
    | .outOfInput a' => .running a'
    | .panicked msg => .panicked msg

/-- The actors with which the supervision loop re-enters Actor::run after
each restart decision, in order: the instrumentation of superviseLoop used
to state backup fidelity. -/
def superviseEntries (backup : Backup S) :
    Actor S → List (List (Option Message)) → List (Actor S)
  | _, [] => []
  | a, inputs :: rest =>
    match a.run inputs with
    | .exited r a' =>
      match SimpleRestartStrategy.apply r backup a' with
      | (.Exit, _) => []
      | (.Restart, a2) => a2 :: superviseEntries backup a2 rest
      | (.RestartDelayed _, a2) => a2 :: superviseEntries backup a2 rest
    | .outOfInput _ => []
    | .panicked _ => []

/-! Part 4: ActorSystem (src/actor_system.rs).

The DashMap registry becomes an association list with unique keys; DashMap
insert replaces the value of an existing key and otherwise appends. The set
of spawned run-loop tasks (join_handles) is modelled as the list of names
whose run loop was scheduled. -/

/-- ActorSystemError from src/actor_system.rs. -/
inductive ActorSystemError where
  | ActorNameAlreadyInUse
  | ActorNotSpawnedYet
deriving DecidableEq, Repr

/-- Registry lookup (DashMap::get). -/
def regGet : List (String × Addr) → String → Option Addr
  | [], _ => none
  | (k, v) :: rest, n => if k = n then some v else regGet rest n

/-- Registry key test (DashMap::contains_key). -/
def regContains (r : List (String × Addr)) (n : String) : Bool :=
  (regGet r n).isSome

/-- Registry insert (DashMap::insert): replace the value of an existing key,
otherwise append. -/
def regInsert : List (String × Addr) → String → Addr → List (String × Addr)
  | [], n, a => [(n, a)]
  | (k, v) :: rest, n, a =>
    if k = n then (n, a) :: rest else (k, v) :: regInsert rest n a

/-- Registry removal (DashMap::remove). -/
def regRemove : List (String × Addr) → String → List (String × Addr)
  | [], _ => []
  | (k, v) :: rest, n =>
    if k = n then rest else (k, v) :: regRemove rest n

/-- ActorSystem from src/actor_system.rs. -/
structure ActorSystem where
  registry : List (String × Addr)
  scheduled : List String
deriving DecidableEq, Repr

/-- ActorSystem::new. -/
def ActorSystem.new : ActorSystem := ⟨[], []⟩

/-- The registry and scheduling effect of ActorSystem::spawn: fail with
ActorNameAlreadyInUse if the name is a registry key, leaving the system
untouched; otherwise register the address under the name and schedule the
run loop (the run loop itself is Actor.run above). The mutation of the
shared system plus the Result return value of the source becomes a pair of
the updated system and an optional error. -/
def ActorSystem.spawn (sys : ActorSystem) (name : String) (addr : Addr) :
    ActorSystem × Option ActorSystemError :=
  if regContains sys.registry name then (sys, some .ActorNameAlreadyInUse)
  else
    ({ registry := regInsert sys.registry name addr,
       scheduled := sys.scheduled ++ [name] }, none)

/-- The registry and scheduling effect of
ActorSystem::spawn_with_supervision: identical duplicate-name check and
registration; additionally a backup is captured before the first start (the
supervision task itself is superviseLoop above). -/
def ActorSystem.spawn_with_supervision (sys : ActorSystem) (name : String)
    (addr : Addr) : ActorSystem × Option ActorSystemError :=
  if regContains sys.registry name then (sys, some .ActorNameAlreadyInUse)
  else
    ({ registry := regInsert sys.registry name addr,
       scheduled := sys.scheduled ++ [name] }, none)

/-- ActorSystem::query. -/
def ActorSystem.query (sys : ActorSystem) (name : String) : Option Addr :=
  regGet sys.registry name

/-- The verdict mapping at the end of ActorSystem::spawn_test: Kill exits
are a passed test, Restart and Error exits (and a panicked driver task,
which surfaces as a join error) are a failed test. -/
def spawnTestVerdict : ExitReason → Bool
  | .Kill => true
  | .Restart => false
  | .Error => false

/-! Part 5: Testing driver (src/testing/actor_test.rs). -/

/-- ResponseDyn from src/testing/actor_test.rs; criteria are stored in their
type-erased form (the wrap function of the source). -/
inductive ResponseDyn where
  | Ask (tid : TypeId) (criteria : Message → Bool)
  | Tell (tid : TypeId) (criteria : Message → Bool)
  | Check

/-- ResponseDyn::tell: wrap a criteria for type tid into a Tell response. -/
def ResponseDyn.tell (tid : TypeId) (criteria : Message → Bool) : ResponseDyn :=
  ResponseDyn.Tell tid criteria

/-- TestActorState from src/testing/actor_test.rs. -/
inductive TestActorState where
  | Ready
  | PendingResponse (resp : ResponseDyn)

/-- TestTask from src/testing/actor_test.rs; the Check predicate over the
subject state is opaque (a numeric identifier), since the driver never
evaluates it itself. -/
inductive TestTask where
  | Tell (msg : Message) (id : Nat)
  | Ask (msg : Message) (resp : ResponseDyn) (id : Nat)
  | Check (pred : Nat) (id : Nat)
  | Expect (resp : ResponseDyn) (id : Nat)
  | Exit

/-- TestActor from src/testing/actor_test.rs: the address of the subject,
the queue of remaining test tasks, and the FSM state. -/
structure TestActor where
  addr : Addr
  tasks : List TestTask
  test_state : TestActorState

/-- The RunNext message (TestActorMessage::RunNext) as a Message. -/
def runNextMessage : Message := Message.without_sender .testMsg

/-- The blanket tell handler for StateCheckMessage of
TestActor::get_blanket_behavior: in state Ready any state-check message is
an InvalidMessageOrder failure; in PendingResponse(Check) a Result(false)
fails with StateCheckFailed after resetting the FSM to Ready, a
Result(true) resets the FSM and reschedules RunNext, and an echoed Check
query only reschedules RunNext; any other pending response is an
InvalidMessageOrder failure. -/
def testStateCheckHandler : HandlerFn TestActor := fun m st ctx =>
  match m.payload with
  | .stateCheck scm =>
    match st.test_state with
    | .Ready => (.error (.fail .invalidMessageOrder), st, ctx)
    | .PendingResponse resp =>
      match resp with
      | .Check =>
        match scm with
        | .Check _ =>
          (Behavior.keepAction, st, ctx.sendTo ctx.get_addr runNextMessage)
        | .Result r =>
          let st1 := { st with test_state := .Ready }
          if r = false then (.error (.fail .stateCheckFailed), st1, ctx)
          else (Behavior.keepAction, st1, ctx.sendTo ctx.get_addr runNextMessage)
      | _ => (.error (.fail .invalidMessageOrder), st, ctx)
  | _ => (.error (.panicked invalidDowncastMsg), st, ctx)

/-- The blanket tell handler for TestActorMessage::RunNext of
TestActor::get_blanket_behavior: pop the next task and execute it. Tell
sends the stored message to the subject and reschedules RunNext; Ask fills
in the reply-to with the own address, records the expected response and
sends; Check asks the subject a StateCheck query and records a pending
Check; Expect records the expected response; Exit sets the Kill flag. With
no task left the handler does nothing. -/
def testRunNextHandler : HandlerFn TestActor := fun m st ctx =>
  match m.payload with
  | .testMsg =>
    match st.tasks with
    | [] => (Behavior.keepAction, st, ctx)
    | task :: rest =>
      let st1 : TestActor := { st with tasks := rest }
      match task with
      | .Tell msg _ =>
        (Behavior.keepAction, st1,
          (ctx.sendTo st1.addr msg).sendTo ctx.get_addr runNextMessage)
      | .Ask msg resp _ =>
        let msg1 : Message := { msg with sender := some ctx.get_addr }
        (Behavior.keepAction,
          { st1 with test_state := .PendingResponse resp },
          ctx.sendTo st1.addr msg1)
      | .Check pred _ =>
        (Behavior.keepAction,
          { st1 with test_state := .PendingResponse .Check },
          ctx.sendTo st1.addr
            (Message.with_sender (.stateCheck (.Check pred)) ctx.get_addr))
      | .Expect resp _ =>
        (Behavior.keepAction,
          { st1 with test_state := .PendingResponse resp }, ctx)
      | .Exit => (Behavior.keepAction, st1, ctx.kill)
  | _ => (.error (.panicked invalidDowncastMsg), st, ctx)

/-- The on_start hook of the blanket behavior: kick off the task loop by
sending RunNext to the own address. -/
def testOnStartHook : Hook TestActor := fun st ctx =>
  (st, ctx.sendTo ctx.get_addr runNextMessage)

/-- TestActor::get_blanket_behavior: builder with the start hook and the
two blanket tell handlers. -/
def TestActor.get_blanket_behavior : Except String (BehaviorBuilder TestActor) := do
  let b ← BehaviorBuilder.new.set_on_start testOnStartHook
  let b ← b.on_tell .stateCheck testStateCheckHandler
  let b ← b.on_tell .testMsg testRunNextHandler
  pure b

/-- The default tell-response handler that the test builder registers for an
expected message type (set_default_tell_response_behavior): the outer guard
is the downcast wrapper; Ready and pending Ask or Check are
InvalidMessageOrder failures; in pending Tell the criteria is checked only
when the arriving type equals the expected type, and a failing criteria is
a CriteriaNotMet failure; otherwise the FSM is reset to Ready and RunNext
rescheduled. -/
def defaultTellResponseHandler (tidM : TypeId) : HandlerFn TestActor :=
  fun m st ctx =>
  if m.typeId = tidM then
    match st.test_state with
    | .Ready => (.error (.fail .invalidMessageOrder), st, ctx)
    | .PendingResponse resp =>
      let fall : HandlerOut TestActor :=
        (Behavior.keepAction, { st with test_state := .Ready },
          ctx.sendTo ctx.get_addr runNextMessage)
      match resp with
      | .Ask _ _ => (.error (.fail .invalidMessageOrder), st, ctx)
      | .Tell expectedTid criteria =>
        if tidM = expectedTid then
          if criteria (Message.without_sender m.payload) = false then
            (.error (.fail .criteriaNotMet), st, ctx)
          else fall
        else fall
      | .Check => (.error (.fail .invalidMessageOrder), st, ctx)
  else (.error (.panicked invalidDowncastMsg), st, ctx)

/-- The default ask-response handler that the test builder registers for an
expected message type (set_default_ask_response_behavior): the outer guard
is the downcast wrapper, and its missing-sender branch drops the message
(Ok(None)); Ready and pending Tell or Check are InvalidMessageOrder
failures; in pending Ask the criteria is checked only when the arriving
type equals the expected type; on success RunNext is rescheduled. Note the
source does not reset the FSM to Ready here. -/
def defaultAskResponseHandler (tidM : TypeId) : HandlerFn TestActor :=
  fun m st ctx =>
  if m.typeId = tidM then
    match m.sender with
    | none => (Behavior.keepAction, st, ctx)
    | some _ =>
      match st.test_state with
      | .Ready => (.error (.fail .invalidMessageOrder), st, ctx)
      | .PendingResponse resp =>
        let fall : HandlerOut TestActor :=
          (Behavior.keepAction, st, ctx.sendTo ctx.get_addr runNextMessage)
        match resp with
        | .Ask expectedTid criteria =>
          if tidM = expectedTid then
            if criteria (Message.without_sender m.payload) = false then
              (.error (.fail .criteriaNotMet), st, ctx)
            else fall
          else fall
        | .Tell _ _ => (.error (.fail .invalidMessageOrder), st, ctx)
        | .Check => (.error (.fail .invalidMessageOrder), st, ctx)
  else (.error (.panicked invalidDowncastMsg), st, ctx)

/-- ActorTestBuilder from src/testing/actor_test.rs. -/
structure ActorTestBuilder where
  behavior_builder : BehaviorBuilder TestActor
  addr : Addr
  tasks : List TestTask
  test_state : TestActorState
  task_id_gen : Nat

namespace ActorTestBuilder

/-- ActorTestBuilder::new with the blanket behavior builder. -/
def new (addr : Addr) : Except String ActorTestBuilder := do
  let bb ← TestActor.get_blanket_behavior
  pure ⟨bb, addr, [], .Ready, 0⟩

/-- ActorTestBuilder::next_task_id. -/
def next_task_id (b : ActorTestBuilder) : Nat × ActorTestBuilder :=
  (b.task_id_gen, { b with task_id_gen := b.task_id_gen + 1 })

/-- ActorTestBuilder::check. -/
def check (b : ActorTestBuilder) (pred : Nat) : ActorTestBuilder :=
  let (id, b1) := b.next_task_id
  { b1 with tasks := b1.tasks ++ [TestTask.Check pred id] }

/-- ActorTestBuilder::tell. -/
def tellStep (b : ActorTestBuilder) (msg : Payload) : ActorTestBuilder :=
  let (id, b1) := b.next_task_id
  { b1 with tasks := b1.tasks ++ [TestTask.Tell (Message.without_sender msg) id] }

/-- ActorTestBuilder::set_default_tell_response_behavior: register the
default tell-response handler for the type unless a tell handler for it
already exists. -/
def set_default_tell_response_behavior (b : ActorTestBuilder)
    (tidM : TypeId) : Except String ActorTestBuilder :=
  if b.behavior_builder.has_tell_handler tidM then .ok b
  else do
    let bb ← b.behavior_builder.on_tell tidM (defaultTellResponseHandler tidM)
    pure { b with behavior_builder := bb }

/-- ActorTestBuilder::set_default_ask_response_behavior: register the
default ask-response handler for the type unless an ask handler for it
already exists. -/
def set_default_ask_response_behavior (b : ActorTestBuilder)
    (tidM : TypeId) : Except String ActorTestBuilder :=
  if b.behavior_builder.has_ask_handler tidM then .ok b
  else do
    let bb ← b.behavior_builder.on_ask tidM (defaultAskResponseHandler tidM)
    pure { b with behavior_builder := bb }

/-- ActorTestBuilder::ask: enqueue an Ask task whose reply-to is filled in
later, and install the default response handler matching the kind of the
expected response. -/
def ask (b : ActorTestBuilder) (msg : Payload) (expected : ResponseDyn) :
    Except String ActorTestBuilder :=
  let m := Message.without_sender msg
  let (id, b1) := b.next_task_id
  match expected with
  | .Ask tid _ =>
    ActorTestBuilder.set_default_ask_response_behavior
      { b1 with tasks := b1.tasks ++ [TestTask.Ask m expected id] } tid
  | .Tell tid _ =>
    ActorTestBuilder.set_default_tell_response_behavior
      { b1 with tasks := b1.tasks ++ [TestTask.Ask m expected id] } tid
  | .Check =>
    .ok { b1 with tasks := b1.tasks ++ [TestTask.Ask m expected id] }

/-- ActorTestBuilder::expect_tell: enqueue a Tell-kind expectation and
install the default tell-response handler. -/
def expect_tell (b : ActorTestBuilder) (tidM : TypeId)
    (criteria : Message → Bool) : Except String ActorTestBuilder :=
  let (id, b1) := b.next_task_id
  ActorTestBuilder.set_default_tell_response_behavior
    { b1 with
      tasks := b1.tasks ++ [TestTask.Expect (ResponseDyn.tell tidM criteria) id] }
    tidM

/-- ActorTestBuilder::expect_ask, translated clause by clause from the
source, whose body coincides with that of expect_tell: it also enqueues a
Tell-kind expectation (ResponseDyn::tell) and also installs the default
tell-response handler. -/
def expect_ask (b : ActorTestBuilder) (tidM : TypeId)
    (criteria : Message → Bool) : Except String ActorTestBuilder :=
  let (id, b1) := b.next_task_id
  ActorTestBuilder.set_default_tell_response_behavior
    { b1 with
      tasks := b1.tasks ++ [TestTask.Expect (ResponseDyn.tell tidM criteria) id] }
    tidM

/-- ActorTestBuilder::build: append the Exit sentinel as the last task and
produce the driver actor with a fresh FSM state Ready. The fresh mailbox
address of Actor::new is a parameter here. -/
def build (b : ActorTestBuilder) (selfAddr : Addr) :
    Except String (Actor TestActor) := do
  let tasks := b.tasks ++ [TestTask.Exit]
  let beh ← b.behavior_builder.build
  pure (Actor.new selfAddr ⟨b.addr, tasks, .Ready⟩ beh)

end ActorTestBuilder

/-- The registration step of ActorSystem::spawn_test: insert the driver
address under the fixed name test_actor, with no duplicate-name check and no
scheduling bookkeeping (spawn_test does not push a join handle). -/
def ActorSystem.spawn_test_register (sys : ActorSystem) (addr : Addr) :
    ActorSystem :=
  { sys with registry := regInsert sys.registry "test_actor" addr }

/-- ActorSystem::spawn_test: register the driver under the fixed name
test_actor with no duplicate-name check, run it, and map the exit reason to
the boolean verdict. A Kill or Error exit removes the entry; a Restart exit
returns false without removing it; a panicked driver task surfaces as a
join error and yields false. -/
def ActorSystem.spawn_test (sys : ActorSystem) (a : Actor TestActor)
    (inputs : List (Option Message)) : ActorSystem × Option Bool :=
  let sys1 : ActorSystem := sys.spawn_test_register a.context.addr
  match a.run inputs with
  | .exited r _ =>
    match r with
    | .Kill =>
      ({ sys1 with registry := regRemove sys1.registry "test_actor" }, some true)
    | .Restart => (sys1, some false)
    | .Error =>
      ({ sys1 with registry := regRemove sys1.registry "test_actor" }, some false)
  | .outOfInput _ => (sys1, none)
  | .panicked _ => (sys1, some false)

/-! Part 6: concrete instances used by counterexamples and witnesses. -/

/-- A behavior with empty dispatch tables and no lifecycle hooks. -/
def emptyBehaviorNat : Behavior Nat := .mk [] [] none none none none

/-- An actor over the empty behavior, address 3, state 0. -/
def c1Actor : Actor Nat := Actor.new 3 0 emptyBehaviorNat

/-- A user tell handler whose body panics (models arbitrary user code that
panics inside a handler). -/
def panickingUserHandler : HandlerFn Nat := fun _ s ctx =>
  (.error (.panicked "user handler panicked"), s, ctx)

/-- A behavior registering the panicking user handler as the tell handler
for the user type 0. -/
def c2Behavior : Behavior Nat :=
  .mk [] [(.user 0, panickingUserHandler)] none none none none

/-- An actor over c2Behavior. -/
def c2Actor : Actor Nat := Actor.new 3 0 c2Behavior

/-- A tell message of user type 0. -/
def c2Msg : Message := Message.without_sender (.user 0 0)

/-- A user tell handler returning Fail (BehaviorAction Err). -/
def failingUserHandler : HandlerFn Nat := fun _ s ctx =>
  (.error (.fail (.userErr 0)), s, ctx)

/-- A behavior registering the failing user handler as the tell handler for
the user type 0. -/
def c2FailBehavior : Behavior Nat :=
  .mk [] [(.user 0, failingUserHandler)] none none none none

/-- An actor over c2FailBehavior. -/
def c2FailActor : Actor Nat := Actor.new 3 0 c2FailBehavior

/-- The actor state right after the failing handler ran. -/
def c2FailActorAfter : Actor Nat :=
  match c2FailActor.handle c2Msg with
  | .ok (_, a) => a
  | .error _ => c2FailActor

/-- An ask message (sender present) of user type 1. -/
def c3AskMsg : Message := Message.with_sender (.user 1 0) 9

/-- An actor over the empty behavior whose control flag is already Restart. -/
def c4Actor : Actor Nat := ⟨7, emptyBehaviorNat, ⟨4, .Restart, []⟩⟩

/-- A concrete test builder over subject address 5 with no user steps. -/
def c5Builder : ActorTestBuilder :=
  match ActorTestBuilder.new 5 with
  | .ok b => b
  | .error _ => ⟨BehaviorBuilder.new, 5, [], .Ready, 0⟩

/-- The driver actor built from c5Builder with own address 9. -/
def c5Actor : Actor TestActor :=
  match c5Builder.build 9 with
  | .ok a => a
  | .error _ => Actor.new 9 ⟨5, [], .Ready⟩ (.mk [] [] none none none none)

/-- The driver actor as returned by its Kill exit. -/
def c5ExitedActor : Actor TestActor :=
  match c5Actor.run [some runNextMessage] with
  | .exited _ a => a
  | _ => c5Actor

/-- A system already holding the name alpha. -/
def c6Sys : ActorSystem := ⟨[("alpha", 1)], ["alpha"]⟩

/-- A user tell handler that swaps in the empty behavior. -/
def changeToEmptyHandler : HandlerFn Nat := fun _ s ctx =>
  (Behavior.changeAction emptyBehaviorNat, s, ctx)

/-- A behavior registering the swapping handler as the tell handler for the
user type 2. -/
def c7Behavior : Behavior Nat :=
  .mk [] [(.user 2, changeToEmptyHandler)] none none none none

/-- An actor over c7Behavior. -/
def c7Actor : Actor Nat := Actor.new 3 0 c7Behavior

/-- A tell message of user type 2. -/
def c7Msg : Message := Message.without_sender (.user 2 0)

/-- A user tell handler for the management message type that keeps the
behavior. -/
def userManageTellHandler : HandlerFn Nat := fun _ s ctx =>
  (Behavior.keepAction, s, ctx)

/-- A builder on which the user registered a tell handler for
ActorManageMessage. -/
def c8Builder : BehaviorBuilder Nat :=
  match BehaviorBuilder.new.on_tell .manage userManageTellHandler with
  | .ok b => b
  | .error _ => BehaviorBuilder.new

/-- The behavior built from an empty builder. -/
def c8Built : Behavior Nat :=
  match (BehaviorBuilder.new : BehaviorBuilder Nat).build with
  | .ok b => b
  | .error _ => emptyBehaviorNat

/-- A system already holding the name test_actor mapped to address 1. -/
def c9Sys : ActorSystem := ⟨[("test_actor", 1)], []⟩

/-- A criteria accepting every message. -/
def critTrue : Message → Bool := fun _ => true

/-- A concrete test builder over subject address 5. -/
def c10Builder : ActorTestBuilder :=
  match ActorTestBuilder.new 5 with
  | .ok b => b
  | .error _ => ⟨BehaviorBuilder.new, 5, [], .Ready, 0⟩

/-- The builder after an expect_ask step for user type 0. -/
def c10Builder2 : ActorTestBuilder :=
  match c10Builder.expect_ask (.user 0) critTrue with
  | .ok b => b
  | .error _ => c10Builder

/-- The driver actor built from c10Builder2 with own address 9. -/
def c10Actor : Actor TestActor :=
  match c10Builder2.build 9 with
  | .ok a => a
  | .error _ => Actor.new 9 ⟨5, [], .Ready⟩ (.mk [] [] none none none none)

/-- The driver actor mid-run, right after the expect_ask step installed its
pending Tell-kind expectation (obtained by running the driver on its first
RunNext). -/
def c10ActorPending : Actor TestActor :=
  match c10Actor.run [some runNextMessage] with
  | .outOfInput a => a
  | _ => c10Actor

/-- An ask-delivered message of the expected user type 0, arriving from the
subject (address 5) during the expect_ask step. -/
def c10AskMsg : Message := Message.with_sender (.user 0 3) 5

/-- Whether a handler result is an InvalidMessageOrder failure. -/
def isInvalidMessageOrderOut (o : HandlerOut S) : Bool :=
  match o.1 with
  | .error (.fail .invalidMessageOrder) => true
  | _ => false

end Aector

open Aector

section RunLoopLemmas

variable {S : Type}

lemma runLoop_run_none (a : Actor S) (rest : List (Option Message))
    (h : a.context.flag = .Run) :
    Actor.runLoop a (none :: rest) = Actor.runLoop a rest := by
  obtain ⟨s, b, ctx⟩ := a
  obtain ⟨ad, fl, sn⟩ := ctx
  cases fl with
  | Run => rfl
  | Kill => cases h
  | Restart => cases h

lemma runLoop_flag_kill (a : Actor S) (inputs : List (Option Message))
    (h : a.context.flag = .Kill) :
    Actor.runLoop a inputs = .exited .Kill a.onKill := by
  obtain ⟨s, b, ctx⟩ := a
  obtain ⟨ad, fl, sn⟩ := ctx
  cases fl with
  | Kill => cases inputs <;> rfl
  | Run => cases h
  | Restart => cases h

lemma runLoop_run_ok_none (a a2 : Actor S) (m : Message)
    (rest : List (Option Message)) (h : a.context.flag = .Run)
    (hh : a.handle m = .ok (none, a2)) :
    Actor.runLoop a (some m :: rest) = Actor.runLoop a2 rest := by
  obtain ⟨s, b, ctx⟩ := a
  obtain ⟨ad, fl, sn⟩ := ctx
  cases fl with
  | Run => simp only [Actor.runLoop, hh]
  | Kill => cases h
  | Restart => cases h

lemma runLoop_run_fail (a a2 : Actor S) (m : Message) (e : BErr)
    (rest : List (Option Message)) (h : a.context.flag = .Run)
    (hh : a.handle m = .ok (some e, a2)) :
    Actor.runLoop a (some m :: rest) = .exited .Error a2.onError := by
  obtain ⟨s, b, ctx⟩ := a
  obtain ⟨ad, fl, sn⟩ := ctx
  cases fl with
  | Run => simp only [Actor.runLoop, hh]
  | Kill => cases h
  | Restart => cases h

lemma runLoop_run_panic (a : Actor S) (m : Message) (p : String)
    (rest : List (Option Message)) (h : a.context.flag = .Run)
    (hh : a.handle m = .error p) :
    Actor.runLoop a (some m :: rest) = .panicked p := by
  obtain ⟨s, b, ctx⟩ := a
  obtain ⟨ad, fl, sn⟩ := ctx
  cases fl with
  | Run => simp only [Actor.runLoop, hh]
  | Kill => cases h
  | Restart => cases h

end RunLoopLemmas

section RegistryTableLemmas

variable {S : Type}

lemma regGet_regInsert_self (r : List (String × Addr)) (n : String) (a : Addr) :
    regGet (regInsert r n a) n = some a := by
  induction r with
  | nil => simp [regInsert, regGet]
  | cons p rest ih =>
    obtain ⟨k, v⟩ := p
    by_cases hk : k = n
    · subst hk; simp [regInsert, regGet]
    · simp [regInsert, regGet, hk, ih]

lemma regContains_regInsert_self (r : List (String × Addr)) (n : String)
    (a : Addr) : regContains (regInsert r n a) n = true := by
  simp [regContains, regGet_regInsert_self]

lemma tableGet_append_last (t : List (TypeId × HandlerFn S)) (tid : TypeId)
    (h : HandlerFn S) (hh : tableHas t tid = false) :
    tableGet (t ++ [(tid, h)]) tid = some h := by
  induction t with
  | nil => simp [tableGet]
  | cons p rest ih =>
    by_cases hp : p.1 = tid
    · simp [tableHas, List.find?_cons_of_pos, hp] at hh
    · simp only [tableHas, List.find?_cons_of_neg, hp, decide_eq_true_eq,
        not_false_eq_true] at hh
      simp only [tableGet, List.cons_append, List.find?_cons_of_neg,
        decide_eq_true_eq, hp, not_false_eq_true]
      exact ih hh

lemma tableHas_append_last (t : List (TypeId × HandlerFn S)) (tid : TypeId)
    (h : HandlerFn S) : tableHas (t ++ [(tid, h)]) tid = true := by
  induction t with
  | nil => simp [tableHas]
  | cons p rest ih =>
    by_cases hp : p.1 = tid
    · simp [tableHas, List.find?_cons_of_pos, hp]
    · simp only [tableHas, List.cons_append, List.find?_cons_of_neg,
        decide_eq_true_eq, hp, not_false_eq_true]
      exact ih

end RegistryTableLemmas

section SupervisionLemmas

variable {S : Type}

lemma superviseEntries_mem (bk : Backup S) :
    ∀ (rounds : List (List (Option Message))) (a e : Actor S),
      e ∈ superviseEntries bk a rounds →
      e.state = bk.get_state ∧ e.behavior = bk.get_behavior := by
  intro rounds
  induction rounds with
  | nil =>
    intro a e h
    simp [superviseEntries] at h
  | cons inputs rest ih =>
    intro a e h
    simp only [superviseEntries] at h
    rcases hrun : a.run inputs with ⟨r, a2⟩ | a2 | msg
    · rw [hrun] at h
      cases r with
      | Kill => simp [SimpleRestartStrategy.apply] at h
      | Restart =>
        simp only [SimpleRestartStrategy.apply] at h
        rcases List.mem_cons.mp h with he | he
        · subst he; exact ⟨rfl, rfl⟩
        · exact ih _ _ he
      | Error =>
        simp only [SimpleRestartStrategy.apply] at h
        rcases List.mem_cons.mp h with he | he
        · subst he; exact ⟨rfl, rfl⟩
        · exact ih _ _ he
    · rw [hrun] at h; simp at h
    · rw [hrun] at h; simp at h

end SupervisionLemmas

/-- C1 (amended): in the actor run loop, when the control flag is Run and
awaiting the next envelope yields none, the loop continues unchanged rather
than exiting; in particular a run over any number of empty dequeues never
produces an exit reason (so it never returns Kill for a closed, drained
mailbox). -/
theorem C1_recv_none_continues (S : Type) (a : Actor S)
    (inputs : List (Option Message)) (h : a.context.flag = .Run) :
    Actor.runLoop a (none :: inputs) = Actor.runLoop a inputs ∧
    ∀ n, (Actor.runLoop a (List.replicate n none)).exitReason? = none := by
  refine ⟨runLoop_run_none a inputs h, ?_⟩
  intro n
  induction n with
  | zero =>
    obtain ⟨s, b, ctx⟩ := a
    obtain ⟨ad, fl, sn⟩ := ctx
    cases fl with
    | Run => rfl
    | Kill => cases h
    | Restart => cases h
  | succ k ih =>
    rw [List.replicate_succ, runLoop_run_none a _ h]
    exact ih

/-- C1 counterexample: a run of a concrete actor whose mailbox yields none
(closed, drained) produces no exit reason at all; it does not return Kill,
the loop is still running. -/
theorem C1_counterexample :
    (Actor.run c1Actor [none]).exitReason? = none ∧
    Actor.run c1Actor [none] = .outOfInput c1Actor := ⟨rfl, rfl⟩

/-- C1 witness. -/
theorem C1_witness :
    Actor.runLoop c1Actor [none] = Actor.runLoop c1Actor [] ∧
    (Actor.runLoop c1Actor (List.replicate 1 none)).exitReason? = none := by
  have h := C1_recv_none_continues Nat c1Actor [] rfl
  exact ⟨h.1, h.2 1⟩

/-- C2 (amended): a handler that returns Fail makes the run loop run
on_error and exit with reason Error; a panic raised by user code inside a
handler is not converted: it propagates out of the run loop (the dispatch
result is a propagating panic and on_error is not run). -/
theorem C2_fail_exits_error_panic_propagates (S : Type) :
    (∀ (a a2 : Actor S) (m : Message) (e : BErr)
        (rest : List (Option Message)),
      a.context.flag = .Run → a.handle m = .ok (some e, a2) →
      Actor.runLoop a (some m :: rest) = .exited .Error a2.onError) ∧
    (∀ (a : Actor S) (m : Message) (p : String)
        (rest : List (Option Message)),
      a.context.flag = .Run → a.handle m = .error p →
      Actor.runLoop a (some m :: rest) = .panicked p) :=
  ⟨fun a a2 m e rest h hh => runLoop_run_fail a a2 m e rest h hh,
   fun a m p rest h hh => runLoop_run_panic a m p rest h hh⟩

/-- C2 counterexample: a concrete actor whose tell handler panics; the run
result is the propagated panic, not an Error exit (no exit reason is
produced and on_error never runs, since the loop is gone). -/
theorem C2_counterexample :
    Actor.run c2Actor [some c2Msg] = .panicked "user handler panicked" ∧
    (Actor.run c2Actor [some c2Msg]).exitReason? = none := ⟨rfl, rfl⟩

/-- C2 witness. -/
theorem C2_witness :
    Actor.runLoop c2FailActor [some c2Msg] =
      .exited .Error c2FailActorAfter.onError ∧
    Actor.runLoop c2Actor [some c2Msg] = .panicked "user handler panicked" :=
  ⟨(C2_fail_exits_error_panic_propagates Nat).1 c2FailActor c2FailActorAfter
      c2Msg (.userErr 0) [] rfl rfl,
   (C2_fail_exits_error_panic_propagates Nat).2 c2Actor c2Msg
      "user handler panicked" [] rfl rfl⟩

/-- C3: dispatch consults the ask table exactly when the envelope carries a
reply-to and the tell table otherwise; when the consulted table has no
entry for the payload type the result is Keep with state and context
unchanged, and the run loop proceeds to the next envelope with the actor
unchanged. -/
theorem C3_dispatch_by_sender (S : Type) (b : Behavior S) (m : Message)
    (s : S) (ctx : ActorContext) :
    ((m.sender.isSome = true →
        b.handle m s ctx = dispatchVia b.on_ask_handler m s ctx) ∧
     (m.sender = none →
        b.handle m s ctx = dispatchVia b.on_tell_handler m s ctx)) ∧
    ((m.sender.isSome = true → tableGet b.on_ask_handler m.typeId = none →
        b.handle m s ctx = (Behavior.keepAction, s, ctx)) ∧
     (m.sender = none → tableGet b.on_tell_handler m.typeId = none →
        b.handle m s ctx = (Behavior.keepAction, s, ctx))) ∧
    (∀ (a : Actor S) (rest : List (Option Message)), a.context.flag = .Run →
       a.behavior.handle m a.state a.context =
         (Behavior.keepAction, a.state, a.context) →
       Actor.runLoop a (some m :: rest) = Actor.runLoop a rest) := by
  refine ⟨⟨?_, ?_⟩, ⟨?_, ?_⟩, ?_⟩
  · intro hs
    cases hsd : m.sender with
    | none => rw [hsd] at hs; cases hs
    | some r => simp [Behavior.handle, dispatchVia, hsd]
  · intro hs
    simp [Behavior.handle, dispatchVia, hs]
  · intro hs hget
    cases hsd : m.sender with
    | none => rw [hsd] at hs; cases hs
    | some r => simp [Behavior.handle, hsd, hget, Behavior.keepAction]
  · intro hs hget
    simp [Behavior.handle, hs, hget, Behavior.keepAction]
  · intro a rest hflag hkeep
    have hh : a.handle m = .ok (none, a) := by
      simp only [Actor.handle, hkeep, Behavior.keepAction, Option.getD]
    exact runLoop_run_ok_none a a m rest hflag hh

/-- C3 witness. -/
theorem C3_witness :
    emptyBehaviorNat.handle c3AskMsg 0 c1Actor.context =
      dispatchVia emptyBehaviorNat.on_ask_handler c3AskMsg 0 c1Actor.context ∧
    emptyBehaviorNat.handle c3AskMsg 0 c1Actor.context =
      (Behavior.keepAction, 0, c1Actor.context) ∧
    Actor.runLoop c1Actor [some c3AskMsg] = Actor.runLoop c1Actor [] := by
  obtain ⟨⟨h1, _⟩, ⟨h2, _⟩, h3⟩ :=
    C3_dispatch_by_sender Nat emptyBehaviorNat c3AskMsg 0 c1Actor.context
  exact ⟨h1 rfl, h2 rfl rfl, h3 c1Actor [] rfl rfl⟩

/-- C4: the built-in SimpleRestartStrategy returns Exit on Kill, and on
Restart or Error it applies the backup and returns Restart; consequently
every actor with which the supervision loop re-enters the run loop after a
restart carries exactly the state and behavior snapshotted at
spawn-with-supervision time. -/
theorem C4_simple_restart_backup_fidelity (S : Type) :
    (∀ (bk : Backup S) (a : Actor S),
        SimpleRestartStrategy.apply .Kill bk a = (.Exit, a)) ∧
    (∀ (bk : Backup S) (a : Actor S),
        SimpleRestartStrategy.apply .Restart bk a =
          (.Restart, a.apply_backup bk)) ∧
    (∀ (bk : Backup S) (a : Actor S),
        SimpleRestartStrategy.apply .Error bk a =
          (.Restart, a.apply_backup bk)) ∧
    (∀ (a0 : Actor S) (rounds : List (List (Option Message))) (e : Actor S),
        e ∈ superviseEntries a0.create_backup a0 rounds →
        e.state = a0.state ∧ e.behavior = a0.behavior) := by
  refine ⟨fun bk a => rfl, fun bk a => rfl, fun bk a => rfl, ?_⟩
  intro a0 rounds e he
  exact superviseEntries_mem a0.create_backup rounds a0 e he

/-- C4 witness. -/
theorem C4_witness :
    SimpleRestartStrategy.apply .Kill c4Actor.create_backup c4Actor =
      (.Exit, c4Actor) ∧
    SimpleRestartStrategy.apply .Restart c4Actor.create_backup c4Actor =
      (.Restart, c4Actor.apply_backup c4Actor.create_backup) ∧
    SimpleRestartStrategy.apply .Error c4Actor.create_backup c4Actor =
      (.Restart, c4Actor.apply_backup c4Actor.create_backup) ∧
    (c4Actor.state = c4Actor.state ∧ c4Actor.behavior = c4Actor.behavior) := by
  obtain ⟨h1, h2, h3, h4⟩ := C4_simple_restart_backup_fidelity Nat
  refine ⟨h1 _ _, h2 _ _, h3 _ _, h4 c4Actor [[]] c4Actor ?_⟩
  have he : superviseEntries c4Actor.create_backup c4Actor [[]] = [c4Actor] :=
    rfl
  rw [he]
  exact List.mem_singleton.mpr rfl

/-- C5: spawn_test returns true exactly when the driver run loop exited
with reason Kill; build appends the Exit sentinel as the last test task;
handling RunNext with the Exit sentinel at the head of the task queue sets
the kill flag so that the loop exits with Kill; a failing step (handler
Fail) makes the loop exit with Error, whose verdict is false. -/
theorem C5_spawn_test_verdict :
    (∀ r, spawnTestVerdict r = true ↔ r = .Kill) ∧
    (∀ (sys : ActorSystem) (a : Actor TestActor)
        (inputs : List (Option Message)) (r : ExitReason)
        (a2 : Actor TestActor),
       a.run inputs = .exited r a2 →
       (sys.spawn_test a inputs).2 = some (spawnTestVerdict r) ∧
       ((sys.spawn_test a inputs).2 = some true ↔ r = .Kill)) ∧
    (∀ (b : ActorTestBuilder) (selfAddr : Addr) (act : Actor TestActor),
       b.build selfAddr = .ok act →
       act.state.tasks = b.tasks ++ [TestTask.Exit]) ∧
    (∀ (a : Actor TestActor) (rest : List (Option Message)),
       tableGet a.behavior.on_tell_handler .testMsg = some testRunNextHandler →
       a.context.flag = .Run →
       (∃ ts, a.state.tasks = TestTask.Exit :: ts) →
       ∃ a2, Actor.runLoop a (some runNextMessage :: rest) =
         .exited .Kill a2) ∧
    (∀ (a : Actor TestActor) (m : Message) (e : BErr)
        (a2 : Actor TestActor) (rest : List (Option Message)),
       a.context.flag = .Run → a.handle m = .ok (some e, a2) →
       Actor.runLoop a (some m :: rest) = .exited .Error a2.onError ∧
       spawnTestVerdict .Error = false) := by
  refine ⟨?_, ?_, ?_, ?_, ?_⟩
  · intro r; cases r <;> simp [spawnTestVerdict]
  · intro sys a inputs r a2 hrun
    constructor
    · simp only [ActorSystem.spawn_test, hrun]
      cases r <;> rfl
    · simp only [ActorSystem.spawn_test, hrun]
      cases r <;> simp [spawnTestVerdict]
  · intro b selfAddr act hb
    simp only [ActorTestBuilder.build] at hb
    cases hbb : b.behavior_builder.build with
    | error e =>
      rw [hbb] at hb
      simp [bind, Except.bind] at hb
    | ok beh =>
      rw [hbb] at hb
      simp only [bind, Except.bind, pure, Except.pure] at hb
      cases hb
      rfl
  · intro a rest hget hflag hts
    obtain ⟨ts, hts⟩ := hts
    obtain ⟨⟨sa, stks, stst⟩, bb, ctx⟩ := a
    obtain ⟨ad, fl, sn⟩ := ctx
    simp only at hts hget hflag
    subst hts
    cases fl with
    | Kill => cases hflag
    | Restart => cases hflag
    | Run =>
      refine ⟨(Actor.mk ⟨sa, ts, stst⟩ bb ⟨ad, .Kill, sn⟩).onKill, ?_⟩
      have hh : (Actor.mk ⟨sa, TestTask.Exit :: ts, stst⟩ bb
          ⟨ad, .Run, sn⟩).handle runNextMessage =
          .ok (none, Actor.mk ⟨sa, ts, stst⟩ bb ⟨ad, .Kill, sn⟩) := by
        simp only [Actor.handle, Behavior.handle, runNextMessage,
          Message.without_sender, Message.typeId, Payload.typeId, hget,
          testRunNextHandler, Behavior.keepAction, ActorContext.kill,
          Option.getD]
      rw [runLoop_run_ok_none _ _ _ rest rfl hh]
      exact runLoop_flag_kill _ rest rfl
  · intro a m e a2 rest hflag hh
    exact ⟨runLoop_run_fail a a2 m e rest hflag hh, rfl⟩

/-- C5 witness. -/
theorem C5_witness :
    spawnTestVerdict .Kill = true ∧
    (ActorSystem.new.spawn_test c5Actor [some runNextMessage]).2 =
      some true ∧
    c5Actor.state.tasks = c5Builder.tasks ++ [TestTask.Exit] ∧
    (∃ a2, Actor.runLoop c5Actor (some runNextMessage :: []) =
      .exited .Kill a2) := by
  obtain ⟨h1, h2, h3, h4, h5⟩ := C5_spawn_test_verdict
  refine ⟨(h1 .Kill).mpr rfl, ?_, ?_, ?_⟩
  · exact ((h2 ActorSystem.new c5Actor [some runNextMessage] .Kill
      c5ExitedActor rfl).2).mpr rfl
  · exact h3 c5Builder 9 c5Actor rfl
  · exact h4 c5Actor [] rfl rfl ⟨[], rfl⟩

/-- C6: a spawn whose name is already a registry key fails with
NameAlreadyInUse and leaves the system untouched (nothing is registered or
scheduled), for spawn and spawn_with_supervision alike; hence of two spawns
with the same name at most one succeeds. -/
theorem C6_name_uniqueness :
    (∀ (sys : ActorSystem) (n : String) (addr : Addr),
       regContains sys.registry n = true →
       sys.spawn n addr = (sys, some .ActorNameAlreadyInUse) ∧
       sys.spawn_with_supervision n addr =
         (sys, some .ActorNameAlreadyInUse)) ∧
    (∀ (sys : ActorSystem) (n : String) (a1 a2 : Addr),
       (sys.spawn n a1).2 = none →
       ((sys.spawn n a1).1.spawn n a2 =
          ((sys.spawn n a1).1, some .ActorNameAlreadyInUse) ∧
        (sys.spawn n a1).1.spawn_with_supervision n a2 =
          ((sys.spawn n a1).1, some .ActorNameAlreadyInUse))) ∧
    (∀ (sys : ActorSystem) (n : String) (a1 a2 : Addr),
       (sys.spawn_with_supervision n a1).2 = none →
       ((sys.spawn_with_supervision n a1).1.spawn n a2).2 =
         some .ActorNameAlreadyInUse) := by
  refine ⟨?_, ?_, ?_⟩
  · intro sys n addr h
    constructor <;>
      simp [ActorSystem.spawn, ActorSystem.spawn_with_supervision, h]
  · intro sys n a1 a2 h
    by_cases hc : regContains sys.registry n = true
    · simp [ActorSystem.spawn, hc] at h
    · constructor <;>
        simp [ActorSystem.spawn, ActorSystem.spawn_with_supervision, hc,
          regContains_regInsert_self]
  · intro sys n a1 a2 h
    by_cases hc : regContains sys.registry n = true
    · simp [ActorSystem.spawn_with_supervision, hc] at h
    · simp [ActorSystem.spawn, ActorSystem.spawn_with_supervision, hc,
        regContains_regInsert_self]

/-- C6 witness. -/
theorem C6_witness :
    (c6Sys.spawn "alpha" 2 = (c6Sys, some .ActorNameAlreadyInUse)) ∧
    ((ActorSystem.new.spawn "beta" 1).1.spawn "beta" 2 =
      ((ActorSystem.new.spawn "beta" 1).1, some .ActorNameAlreadyInUse)) := by
  obtain ⟨h1, h2, h3⟩ := C6_name_uniqueness
  exact ⟨(h1 c6Sys "alpha" 2 rfl).1,
         (h2 ActorSystem.new "beta" 1 2 rfl).1⟩

/-- C7: a handler returning Change installs the replacement behavior on the
actor before the next dequeue, and the run loop proceeds with exactly that
actor, so every subsequent dispatch goes through the replacement
behavior. -/
theorem C7_change_installs_behavior (S : Type) (a : Actor S) (m : Message)
    (bNew : Behavior S) (s2 : S) (ctx2 : ActorContext)
    (rest : List (Option Message))
    (hh : a.behavior.handle m a.state a.context =
      (Behavior.changeAction bNew, s2, ctx2)) :
    a.handle m = .ok (none, Actor.mk s2 bNew ctx2) ∧
    (Actor.mk s2 bNew ctx2).behavior = bNew ∧
    (a.context.flag = .Run →
      Actor.runLoop a (some m :: rest) =
        Actor.runLoop (Actor.mk s2 bNew ctx2) rest) := by
  have h1 : a.handle m = .ok (none, Actor.mk s2 bNew ctx2) := by
    simp only [Actor.handle, hh, Behavior.changeAction, Option.getD]
  refine ⟨h1, rfl, ?_⟩
  intro hflag
  exact runLoop_run_ok_none a _ m rest hflag h1

/-- C7 witness. -/
theorem C7_witness :
    c7Actor.handle c7Msg =
      .ok (none, Actor.mk 0 emptyBehaviorNat c7Actor.context) ∧
    Actor.runLoop c7Actor [some c7Msg] =
      Actor.runLoop (Actor.mk 0 emptyBehaviorNat c7Actor.context) [] := by
  obtain ⟨h1, _, h3⟩ := C7_change_installs_behavior Nat c7Actor c7Msg
    emptyBehaviorNat 0 c7Actor.context [] rfl
  exact ⟨h1, h3 rfl⟩

/-- C8: build unconditionally registers its management tell handler through
the duplicate-checking registration path, so a builder that already holds a
user tell handler for ActorManageMessage panics at build time with the
duplicate-handler message; consequently every successfully built behavior
carries the default management handler for Kill and Restart. -/
theorem C8_build_panics_on_user_manage_handler (S : Type) :
    (∀ b : BehaviorBuilder S, b.has_tell_handler .manage = true →
       b.build = .error duplicateTellHandlerMsg) ∧
    (∀ (b : BehaviorBuilder S) (beh : Behavior S), b.build = .ok beh →
       tableGet beh.on_tell_handler .manage = some manageHandler) := by
  constructor
  · intro b h
    simp only [BehaviorBuilder.has_tell_handler] at h
    simp [BehaviorBuilder.build, BehaviorBuilder.on_tell, h]
  · intro b beh h
    simp only [BehaviorBuilder.build] at h
    cases hot : b.on_tell .manage manageHandler with
    | error e => rw [hot] at h; cases h
    | ok b2 =>
      rw [hot] at h
      injection h with h
      subst h
      simp only [BehaviorBuilder.on_tell] at hot
      by_cases hhas : tableHas b.on_tell_handler TypeId.manage = true
      · simp [hhas] at hot
      · simp only [Bool.not_eq_true] at hhas
        simp only [hhas, Bool.false_eq_true, if_false] at hot
        injection hot with hot
        subst hot
        exact tableGet_append_last b.on_tell_handler .manage manageHandler hhas

/-- C8 witness. -/
theorem C8_witness :
    c8Builder.build = .error duplicateTellHandlerMsg ∧
    tableGet c8Built.on_tell_handler .manage = some manageHandler := by
  obtain ⟨h1, h2⟩ := C8_build_panics_on_user_manage_handler Nat
  exact ⟨h1 c8Builder rfl, h2 BehaviorBuilder.new c8Built rfl⟩

/-- C9: the spawn_test registration always inserts the driver under the
fixed name test_actor with no uniqueness check, silently overwriting any
existing entry of that name (where spawn would have failed with
NameAlreadyInUse), and spawn_test pushes no join handle. -/
theorem C9_spawn_test_register_overwrites (sys : ActorSystem) (addr : Addr) :
    regGet (sys.spawn_test_register addr).registry "test_actor" = some addr ∧
    (sys.spawn_test_register addr).scheduled = sys.scheduled ∧
    (regContains sys.registry "test_actor" = true →
       sys.spawn "test_actor" addr = (sys, some .ActorNameAlreadyInUse)) ∧
    (∀ (a : Actor TestActor) (inputs : List (Option Message)),
       (sys.spawn_test a inputs).1.scheduled = sys.scheduled ∧
       ((sys.spawn_test a inputs).1.registry =
          (sys.spawn_test_register a.context.addr).registry ∨
        (sys.spawn_test a inputs).1.registry =
          regRemove (sys.spawn_test_register a.context.addr).registry
            "test_actor")) := by
  refine ⟨regGet_regInsert_self _ _ _, rfl, ?_, ?_⟩
  · intro h
    simp [ActorSystem.spawn, h]
  · intro a inputs
    cases hrun : a.run inputs with
    | exited r a2 =>
      cases r <;>
        simp [ActorSystem.spawn_test, ActorSystem.spawn_test_register, hrun]
    | outOfInput a2 =>
      simp [ActorSystem.spawn_test, ActorSystem.spawn_test_register, hrun]
    | panicked msg =>
      simp [ActorSystem.spawn_test, ActorSystem.spawn_test_register, hrun]

/-- C9 witness. -/
theorem C9_witness :
    regGet (c9Sys.spawn_test_register 2).registry "test_actor" = some 2 ∧
    c9Sys.spawn "test_actor" 2 = (c9Sys, some .ActorNameAlreadyInUse) := by
  obtain ⟨h1, _, h3, _⟩ := C9_spawn_test_register_overwrites c9Sys 2
  exact ⟨h1, h3 rfl⟩

/-- C10 (amended): expect_ask coincides with expect_tell, enqueuing a
Tell-kind expectation and installing the default tell-response handler; an
ask-delivered message arriving during the expectation is silently dropped
when no ask handler for its type is registered, and fails the test with
InvalidMessageOrder exactly when the default ask-response handler for its
type was installed by an earlier ask step. -/
theorem C10_expect_ask_equals_expect_tell :
    (∀ (b : ActorTestBuilder) (tid : TypeId) (crit : Message → Bool),
       b.expect_ask tid crit = b.expect_tell tid crit) ∧
    (∀ (b : ActorTestBuilder) (tid : TypeId) (crit : Message → Bool)
        (b2 : ActorTestBuilder),
       b.expect_ask tid crit = .ok b2 →
       b2.tasks = b.tasks ++
         [TestTask.Expect (ResponseDyn.Tell tid crit) b.task_id_gen] ∧
       b2.behavior_builder.has_tell_handler tid = true) ∧
    (∀ (beh : Behavior TestActor) (st : TestActor) (ctx : ActorContext)
        (m : Message),
       m.sender.isSome = true → tableGet beh.on_ask_handler m.typeId = none →
       beh.handle m st ctx = (Behavior.keepAction, st, ctx)) ∧
    (∀ (tidM expTid : TypeId) (crit : Message → Bool) (st : TestActor)
        (ctx : ActorContext) (m : Message) (r : Addr),
       m.typeId = tidM → m.sender = some r →
       st.test_state = .PendingResponse (ResponseDyn.Tell expTid crit) →
       defaultAskResponseHandler tidM m st ctx =
         (.error (.fail .invalidMessageOrder), st, ctx)) := by
  refine ⟨fun b tid crit => rfl, ?_, ?_, ?_⟩
  · intro b tid crit b2 h
    simp only [ActorTestBuilder.expect_ask, ActorTestBuilder.next_task_id,
      ActorTestBuilder.set_default_tell_response_behavior] at h
    split at h
    · injection h with h
      subst h
      constructor
      · rfl
      · assumption
    · rename_i hhas
      simp only [BehaviorBuilder.has_tell_handler, Bool.not_eq_true] at hhas
      simp only [BehaviorBuilder.on_tell, hhas, Bool.false_eq_true,
        if_false, bind, Except.bind, pure, Except.pure] at h
      injection h with h
      subst h
      refine ⟨rfl, ?_⟩
      simp only [BehaviorBuilder.has_tell_handler]
      exact tableHas_append_last _ tid _
  · intro beh st ctx m hs hget
    cases hsd : m.sender with
    | none => rw [hsd] at hs; cases hs
    | some r => simp [Behavior.handle, hsd, hget, Behavior.keepAction]
  · intro tidM expTid crit st ctx m r htid hsd hpend
    simp [defaultAskResponseHandler, htid, hsd, hpend]

/-- C10 counterexample: the driver built from a single expect_ask step,
while in its pending expectation, silently drops an ask-delivered message
of the expected type (the dispatch result is Keep, not an
InvalidMessageOrder failure). -/
theorem C10_counterexample :
    c10ActorPending.behavior.handle c10AskMsg c10ActorPending.state
        c10ActorPending.context =
      (Behavior.keepAction, c10ActorPending.state,
        c10ActorPending.context) ∧
    c10ActorPending.state.test_state =
      .PendingResponse (ResponseDyn.Tell (.user 0) critTrue) ∧
    isInvalidMessageOrderOut
      (c10ActorPending.behavior.handle c10AskMsg c10ActorPending.state
        c10ActorPending.context) = false := ⟨rfl, rfl, rfl⟩

/-- C10 witness. -/
theorem C10_witness :
    c10Builder.expect_ask (.user 0) critTrue =
      c10Builder.expect_tell (.user 0) critTrue ∧
    c10Builder2.tasks = c10Builder.tasks ++
      [TestTask.Expect (ResponseDyn.Tell (.user 0) critTrue)
        c10Builder.task_id_gen] ∧
    c10Builder2.behavior_builder.has_tell_handler (.user 0) = true ∧
    c10ActorPending.behavior.handle c10AskMsg c10ActorPending.state
        c10ActorPending.context =
      (Behavior.keepAction, c10ActorPending.state,
        c10ActorPending.context) ∧
    defaultAskResponseHandler (.user 0) c10AskMsg c10ActorPending.state
        c10ActorPending.context =
      (.error (.fail .invalidMessageOrder), c10ActorPending.state,
        c10ActorPending.context) := by
  obtain ⟨h1, h2, h3, h4⟩ := C10_expect_ask_equals_expect_tell
  refine ⟨h1 c10Builder _ _, ?_, ?_, ?_, ?_⟩
  · exact (h2 c10Builder (.user 0) critTrue c10Builder2 rfl).1
  · exact (h2 c10Builder (.user 0) critTrue c10Builder2 rfl).2
  · exact h3 c10ActorPending.behavior c10ActorPending.state
      c10ActorPending.context c10AskMsg rfl rfl
  · exact h4 (.user 0) (.user 0) critTrue c10ActorPending.state
      c10ActorPending.context c10AskMsg 5 rfl rfl rfl
